import Mathlib

/-!
Verification of the configuration-space model and IK/FK adaptation layer of
the Stretch mobile manipulator (src/stretch/motion/kinematics.py).

Planning configurations are modelled as lists of rationals (numpy arrays of
scalars, with exact arithmetic standing in for float arithmetic); the
helpers that need trigonometry (extend_arm_to, sample_uniform) are modelled
over the reals.  The external IK/FK solver is an opaque oracle, passed to
each orchestration function as an explicit argument.  Instance state of the
HelloStretchKinematics class (the solver handle, the robot name, the joint
range table) appears as leading parameters of the corresponding functions.
-/

namespace HelloStretchIdx

/-- Joint indices for the Stretch planning-configuration space
(class HelloStretchIdx in kinematics.py). -/
abbrev BASE_X : Nat := 0

abbrev BASE_Y : Nat := 1

abbrev BASE_THETA : Nat := 2

abbrev LIFT : Nat := 3

abbrev ARM : Nat := 4

abbrev GRIPPER : Nat := 5

abbrev WRIST_ROLL : Nat := 6

abbrev WRIST_PITCH : Nat := 7

abbrev WRIST_YAW : Nat := 8

abbrev HEAD_PAN : Nat := 9

abbrev HEAD_TILT : Nat := 10

end HelloStretchIdx

namespace HelloStretchKinematics

/-- self.dof = 3 + 2 + 4 + 2 (kinematics.py line 206). -/
def dof : Nat := 3 + 2 + 4 + 2

/-- The default list of manipulation-mode controlled joints
(default_manip_mode_controlled_joints in kinematics.py). -/
def default_manip_mode_controlled_joints : List String :=
  ["joint_fake", "joint_lift", "joint_arm_l3", "joint_arm_l2", "joint_arm_l1",
   "joint_arm_l0", "joint_wrist_yaw", "joint_wrist_pitch", "joint_wrist_roll"]

/-- self._manip_dof = len(self._manip_mode_controlled_joints). -/
def manip_dof : Nat := default_manip_mode_controlled_joints.length

/-- DEFAULT_BASE_HEIGHT = 0 (kinematics.py line 83); self.base_height. -/
def base_height : ℚ := 0

/-- Modelled from the spec: STRETCH_HOME_Q, the built-in home configuration
constant, is imported from stretch.motion.constants which is not part of the
sources in scope.  Only its existence as a fixed full planning configuration
matters for the claims below; its entries are taken as zero. -/
def STRETCH_HOME_Q : List ℚ := List.replicate dof 0

/-- _to_ik_format: planning configuration to the legacy solver joint vector
(kinematics.py lines 287-303).  The zeros buffer has one slot per solver
joint; indices 0..10 are written. -/
def to_ik_format (q : List ℚ) : List ℚ :=
  let arm_ext := q.getD HelloStretchIdx.ARM 0 / 4
  [q.getD HelloStretchIdx.BASE_X 0, q.getD HelloStretchIdx.BASE_Y 0,
   q.getD HelloStretchIdx.BASE_THETA 0, q.getD HelloStretchIdx.LIFT 0,
   arm_ext, arm_ext, arm_ext, arm_ext,
   q.getD HelloStretchIdx.WRIST_YAW 0, q.getD HelloStretchIdx.WRIST_PITCH 0,
   q.getD HelloStretchIdx.WRIST_ROLL 0]

/-- _to_manip_format: planning configuration to the 9-element
manipulation-mode vector (kinematics.py lines 305-319). -/
def to_manip_format (q : List ℚ) : List ℚ :=
  let arm_ext := q.getD HelloStretchIdx.ARM 0 / 4
  [q.getD HelloStretchIdx.BASE_X 0, q.getD HelloStretchIdx.LIFT 0,
   arm_ext, arm_ext, arm_ext, arm_ext,
   q.getD HelloStretchIdx.WRIST_YAW 0, q.getD HelloStretchIdx.WRIST_PITCH 0,
   q.getD HelloStretchIdx.WRIST_ROLL 0]

/-- _to_plan_format: legacy solver joint vector back to a planning
configuration (kinematics.py lines 321-332).  The buffer starts as zeros, so
fields the solver vector lacks (gripper, head pan, head tilt) come out 0. -/
def to_plan_format (q : List ℚ) : List ℚ :=
  [q.getD 0 0, q.getD 1 0, q.getD 2 0, q.getD 3 0,
   q.getD 4 0 + q.getD 5 0 + q.getD 6 0 + q.getD 7 0,
   0,
   q.getD 10 0, q.getD 9 0, q.getD 8 0,
   0, 0]

/-- _from_manip_format: merge a 9-element manipulation-mode result q_raw
over a copy of the supplied configuration q_init (kinematics.py lines
334-348).  The arm is the sum of the four segment slots q_raw[2:6]. -/
def from_manip_format (q_raw q_init : List ℚ) : List ℚ :=
  (((((q_init.set HelloStretchIdx.BASE_X (q_raw.getD 0 0)).set
      HelloStretchIdx.LIFT (q_raw.getD 1 0)).set
      HelloStretchIdx.ARM
        (q_raw.getD 2 0 + q_raw.getD 3 0 + q_raw.getD 4 0 + q_raw.getD 5 0)).set
      HelloStretchIdx.WRIST_ROLL (q_raw.getD 8 0)).set
      HelloStretchIdx.WRIST_PITCH (q_raw.getD 7 0)).set
      HelloStretchIdx.WRIST_YAW (q_raw.getD 6 0)

/-- _ros_pose_to_pinocchio: planning configuration to the 9-element
pinocchio joint pose used by manip_fk (kinematics.py lines 353-364). -/
def ros_pose_to_pinocchio (joint_angles : List ℚ) : List ℚ :=
  let arm := joint_angles.getD HelloStretchIdx.ARM 0 / 4
  [joint_angles.getD HelloStretchIdx.BASE_X 0,
   joint_angles.getD HelloStretchIdx.LIFT 0,
   arm, arm, arm, arm,
   joint_angles.getD HelloStretchIdx.WRIST_YAW 0,
   joint_angles.getD HelloStretchIdx.WRIST_PITCH 0,
   joint_angles.getD HelloStretchIdx.WRIST_ROLL 0]

/-- _pinocchio_pose_to_ros raises NotImplementedError unconditionally
(kinematics.py lines 350-351). -/
def pinocchio_pose_to_ros (joint_angles : List ℚ) : Except String (List ℚ) :=
  Except.error "NotImplementedError"

/-- get_ee_pose raises NotImplementedError unconditionally
(kinematics.py lines 426-427). -/
def get_ee_pose (q : Option (List ℚ)) : Except String (List ℚ × List ℚ) :=
  Except.error "NotImplementedError"

/-- The 4x4 homogeneous pose built by ik from a rotation matrix (computed by
the external scipy Rotation, here an opaque input) and a position whose z is
reduced by the base height (kinematics.py lines 367-372). -/
def pose_matrix (rotmat : List (List ℚ)) (x y z : ℚ) : List (List ℚ) :=
  let row := fun i => rotmat.getD i []
  [[(row 0).getD 0 0, (row 0).getD 1 0, (row 0).getD 2 0, x],
   [(row 1).getD 0 0, (row 1).getD 1 0, (row 1).getD 2 0, y],
   [(row 2).getD 0 0, (row 2).getD 1 0, (row 2).getD 2 0, z - base_height],
   [0, 0, 0, 1]]

/-- ik: full-body legacy inverse kinematics (kinematics.py lines 366-377).
compute_ik is the opaque solver oracle (self.ik_solver.compute_ik), D its
opaque diagnostics type, rotmat the rotation matrix scipy derives from the
quaternion.  On oracle failure (absent vector or success flag false) the
result is the absent sentinel none; no exception path exists. -/
def ik (D : Type)
    (compute_ik : List (List ℚ) → List ℚ → Option (List ℚ) × Bool × D)
    (rotmat : List (List ℚ)) (pos : ℚ × ℚ × ℚ) (q0 : List ℚ) :
    Option (List ℚ) :=
  match compute_ik (pose_matrix rotmat pos.1 pos.2.1 pos.2.2) (to_ik_format q0) with
  | (some q, true, _) => some (to_plan_format q)
  | (some _, false, _) => none
  | (none, _, _) => none

/-- manip_ik: manipulation-mode inverse kinematics (kinematics.py lines
379-424).  compute_ik is the opaque oracle (self.manip_ik_solver.compute_ik,
possibly the refinement optimizer), D its opaque diagnostics type.  The
source evaluates self._to_manip_format(q0) on line 396 and discards the
result, then passes q0 itself as the oracle seed; this dead evaluation is
kept here as the unused binding _discarded.  Non-relative targets raise
NotImplementedError before the oracle is consulted.  On success the oracle
output is merged over default_q by _from_manip_format; otherwise the oracle
triple is returned unchanged. -/
def manip_ik (D : Type)
    (compute_ik : ℚ × ℚ × ℚ → ℚ × ℚ × ℚ × ℚ → Option (List ℚ) → Nat → Bool →
      Option String → Option (List ℚ) × Bool × D)
    (pose_query : (ℚ × ℚ × ℚ) × (ℚ × ℚ × ℚ × ℚ)) (q0 : Option (List ℚ))
    (relative : Bool) (num_attempts : Nat) (verbose : Bool)
    (custom_ee_frame : Option String) :
    Except String (Option (List ℚ) × Bool × D) :=
  let default_q : List ℚ :=
    match q0 with
    | some q =>
      let _discarded := to_manip_format q
      q
    | none => STRETCH_HOME_Q
  if relative then
    let pos := pose_query.1
    let quat := pose_query.2
    match compute_ik pos quat q0 num_attempts verbose custom_ee_frame with
    | (some q, true, debug_info) =>
      Except.ok (some (from_manip_format q default_q), true, debug_info)
    | (some q, false, debug_info) => Except.ok (some q, false, debug_info)
    | (none, success, debug_info) => Except.ok (none, success, debug_info)
  else
    Except.error "NotImplementedError"

/-- Value-level model of numpy ndarray.copy(): a fresh array holding the
same values.  Aliasing is not representable in value semantics, so on
values the copy is the identity. -/
def np_copy {α : Type} (l : List α) : List α := l

/-- manip_fk: manipulator forward kinematics (kinematics.py lines 263-271).
compute_fk is the opaque FK oracle (self.manip_ik_solver.compute_fk).  The
configuration must have exactly dof entries (assert q.shape == (self.dof,));
the ik_type always contains the substring pinocchio (asserted at solver
construction), so the pinocchio conversion is unconditional.  Both returned
arrays are defensive copies of the oracle output. -/
def manip_fk (compute_fk : List ℚ → Option String → List ℚ × List ℚ)
    (q : List ℚ) (node : Option String) : Except String (List ℚ × List ℚ) :=
  if q.length = dof then
    let qp := ros_pose_to_pinocchio q
    let r := compute_fk qp node
    Except.ok (np_copy r.1, np_copy r.2)
  else
    Except.error "assert q.shape == (self.dof,)"

/-- Failure modes of manip_ik_for_grasp_frame (kinematics.py lines 448-466):
the two RuntimeError domain checks carry the robot name and the offending
target position; passing no seed hits len(None) and raises TypeError; a
seed of length neither manip_dof nor dof fails the assert; innerError wraps
an error propagated from manip_ik. -/
inductive GraspError where
  | domainErrorY (robotName : String) (ee_pos : ℚ × ℚ × ℚ)
  | domainErrorZ (robotName : String) (ee_pos : ℚ × ℚ × ℚ)
  | typeErrorNoneSeed
  | assertJointStatesSize
  | innerError (msg : String)
deriving DecidableEq

/-- Seed normalization inside manip_ik_for_grasp_frame (kinematics.py lines
459-463): a seed of manipulator length passes through, a full-length seed is
converted with _to_manip_format, anything else fails the assert. -/
def grasp_normalize_seed (q0 : List ℚ) : Except GraspError (List ℚ) :=
  if q0.length ≠ manip_dof then
    if q0.length = dof then Except.ok (to_manip_format q0)
    else Except.error GraspError.assertJointStatesSize
  else Except.ok q0

/-- The delegation tail of manip_ik_for_grasp_frame (kinematics.py line
465): invoke manip_ik with the normalized seed and default keyword values,
and repackage the result with the original target pose. -/
def grasp_invoke (D : Type)
    (compute_ik : ℚ × ℚ × ℚ → ℚ × ℚ × ℚ × ℚ → Option (List ℚ) → Nat → Bool →
      Option String → Option (List ℚ) × Bool × D)
    (ee_pos : ℚ × ℚ × ℚ) (ee_rot : ℚ × ℚ × ℚ × ℚ) (qs : List ℚ) :
    Except GraspError
      (Option (List ℚ) × (ℚ × ℚ × ℚ) × (ℚ × ℚ × ℚ × ℚ) × Bool × D) :=
  match manip_ik D compute_ik (ee_pos, ee_rot) (some qs) true 1 false none with
  | Except.error msg => Except.error (GraspError.innerError msg)
  | Except.ok (target_joint_state, success, info) =>
    Except.ok (target_joint_state, ee_pos, ee_rot, success, info)

/-- manip_ik_for_grasp_frame (kinematics.py lines 448-466): reject targets
with positive y, then targets with negative z, each with a RuntimeError
naming the robot and the target position; then take len of the seed (a
TypeError when the optional seed was omitted), normalize it, and delegate
to manip_ik. -/
def manip_ik_for_grasp_frame (D : Type)
    (compute_ik : ℚ × ℚ × ℚ → ℚ × ℚ × ℚ × ℚ → Option (List ℚ) → Nat → Bool →
      Option String → Option (List ℚ) × Bool × D)
    (name : String) (ee_pos : ℚ × ℚ × ℚ) (ee_rot : ℚ × ℚ × ℚ × ℚ)
    (q0 : Option (List ℚ)) :
    Except GraspError
      (Option (List ℚ) × (ℚ × ℚ × ℚ) × (ℚ × ℚ × ℚ × ℚ) × Bool × D) :=
  if ee_pos.2.1 > 0 then Except.error (GraspError.domainErrorY name ee_pos)
  else if ee_pos.2.2 < 0 then Except.error (GraspError.domainErrorZ name ee_pos)
  else
    match q0 with
    | none => Except.error GraspError.typeErrorNoneSeed
    | some qq =>
      match grasp_normalize_seed qq with
      | Except.error e => Except.error e
      | Except.ok qs => grasp_invoke D compute_ik ee_pos ee_rot qs

/-- A concrete full planning configuration used to exhibit the seed handling
of manip_ik (arm extension 8, so the four segment slots are 2 each). -/
def seed_example : List ℚ := [1, 2, 3, 4, 8, 5, 6, 7, 9, 10, 11]

/-- A concrete 9-element oracle output used to exhibit the merge step of
manip_ik. -/
def oracle_out_example : List ℚ := [30, 31, 1, 1, 1, 1, 32, 33, 34]

/-- extend_arm_to (kinematics.py lines 429-446): set the arm to the target
value on a copy of the configuration and displace the base by the arm
change along heading + pi/2.  The source copies the input before mutating,
so the caller's configuration is untouched; here the function is pure. -/
noncomputable def extend_arm_to (q : List ℝ) (arm : ℝ) : List ℝ :=
  let a0 := q.getD HelloStretchIdx.ARM 0
  let a1 := arm
  let q1 := q.set HelloStretchIdx.ARM a1
  let theta := q1.getD HelloStretchIdx.BASE_THETA 0 + Real.pi / 2
  let da := a1 - a0
  let dx := da * Real.cos theta
  let dy := da * Real.sin theta
  (q1.set HelloStretchIdx.BASE_X (q1.getD HelloStretchIdx.BASE_X 0 + dx)).set
    HelloStretchIdx.BASE_Y (q1.getD HelloStretchIdx.BASE_Y 0 + dy)

/-- sample_uniform (kinematics.py lines 228-250) with the random draws made
explicit: draws holds the np.random.random(self.dof) vector, theta_draw the
heading draw and pos_draw the base-placement angle draw, each in [0, 1).
Modelled from the spec: the attributes self._mins and self._rngs are not
defined in the source in scope; following the spec (draw uniformly within
the joint-range table), they are taken as the lower bounds and the widths
of the per-dof range table self.range. -/
noncomputable def sample_uniform (range : List (ℝ × ℝ)) (draws : List ℝ)
    (theta_draw pos_draw : ℝ) (q0 : Option (List ℝ)) (pos : Option (ℝ × ℝ))
    (radius : ℝ) : List ℝ :=
  let mins := fun i => (range.getD i (0, 0)).1
  let rngs := fun i => (range.getD i (0, 0)).2 - (range.getD i (0, 0)).1
  let d := fun i => draws.getD i 0
  let q : List ℝ :=
    [d 0 * rngs 0 + mins 0, d 1 * rngs 1 + mins 1, d 2 * rngs 2 + mins 2,
     d 3 * rngs 3 + mins 3, d 4 * rngs 4 + mins 4, d 5 * rngs 5 + mins 5,
     d 6 * rngs 6 + mins 6, d 7 * rngs 7 + mins 7, d 8 * rngs 8 + mins 8,
     d 9 * rngs 9 + mins 9, d 10 * rngs 10 + mins 10]
  let q := q.set HelloStretchIdx.BASE_THETA (theta_draw * Real.pi * 2)
  let q :=
    match q0 with
    | some qq => q.set HelloStretchIdx.GRIPPER (qq.getD HelloStretchIdx.GRIPPER 0)
    | none => q
  let xy : Option (ℝ × ℝ) :=
    match pos with
    | some p => some (p.1, p.2)
    | none =>
      match q0 with
      | some qq =>
        some (qq.getD HelloStretchIdx.BASE_X 0, qq.getD HelloStretchIdx.BASE_Y 0)
      | none => none
  match xy with
  | some (x, y) =>
    let theta := pos_draw * 2 * Real.pi
    let dx := radius * Real.cos theta
    let dy := radius * Real.sin theta
    (q.set HelloStretchIdx.BASE_X (x + dx)).set HelloStretchIdx.BASE_Y (y + dy)
  | none => q

/-- A concrete joint-range table for exercising sample_uniform: every dof
ranges over the interval from 0 to 1. -/
noncomputable def range_example : List (ℝ × ℝ) :=
  [(0, 1), (0, 1), (0, 1), (0, 1), (0, 1), (0, 1), (0, 1), (0, 1), (0, 1),
   (0, 1), (0, 1)]

/-- A concrete draw vector (all zeros) for exercising sample_uniform. -/
noncomputable def draws_example : List ℝ := [0, 0, 0, 0, 0, 0, 0, 0, 0, 0, 0]

/-- A concrete reference configuration for exercising sample_uniform: base
at (100, 0), gripper 7. -/
noncomputable def q0_example : List ℝ := [100, 0, 0, 0, 0, 7, 0, 0, 0, 0, 0]

/-- C1: converting a full 11-dof planning configuration with
_to_manip_format and merging the result back over the same original
configuration with _from_manip_format reproduces the original arm
extension, base-x, lift and wrist roll/pitch/yaw exactly, and every field
absent from the 9-element manipulation-mode vector (base-y, base-theta,
gripper, head pan, head tilt) is preserved unchanged from the merge
target; in particular the round trip is the identity. -/
theorem from_manip_format_to_manip_format_roundtrip
    (x y θ l a g wr wp wy hp ht : ℚ) :
    from_manip_format (to_manip_format [x, y, θ, l, a, g, wr, wp, wy, hp, ht])
        [x, y, θ, l, a, g, wr, wp, wy, hp, ht]
      = [x, y, θ, l, a, g, wr, wp, wy, hp, ht] := by
  have h4 : a / 4 + a / 4 + a / 4 + a / 4 = a := by ring
  show [x, y, θ, l, a / 4 + a / 4 + a / 4 + a / 4, g, wr, wp, wy, hp, ht]
      = [x, y, θ, l, a, g, wr, wp, wy, hp, ht]
  rw [h4]

/-- C3: every forward conversion to a 4-segment layout (_to_ik_format,
_to_manip_format, _ros_pose_to_pinocchio) writes four equal segment values,
each the arm extension divided by 4 and together summing to the original
arm extension; and the inverse conversions (_to_plan_format,
_from_manip_format) set the planning arm value to the sum of the four
segment slots even when those are unequal. -/
theorem conversion_segment_invariant
    (x y θ l a g wr wp wy hp ht : ℚ)
    (s0 s1 s2 s3 s4 s5 s6 s7 s8 s9 s10 : ℚ)
    (r0 r1 r2 r3 r4 r5 r6 r7 r8 : ℚ)
    (i0 i1 i2 i3 i4 i5 i6 i7 i8 i9 i10 : ℚ) :
    to_ik_format [x, y, θ, l, a, g, wr, wp, wy, hp, ht]
        = [x, y, θ, l, a / 4, a / 4, a / 4, a / 4, wy, wp, wr]
    ∧ (to_ik_format [x, y, θ, l, a, g, wr, wp, wy, hp, ht]).getD 4 0
        + (to_ik_format [x, y, θ, l, a, g, wr, wp, wy, hp, ht]).getD 5 0
        + (to_ik_format [x, y, θ, l, a, g, wr, wp, wy, hp, ht]).getD 6 0
        + (to_ik_format [x, y, θ, l, a, g, wr, wp, wy, hp, ht]).getD 7 0 = a
    ∧ to_manip_format [x, y, θ, l, a, g, wr, wp, wy, hp, ht]
        = [x, l, a / 4, a / 4, a / 4, a / 4, wy, wp, wr]
    ∧ (to_manip_format [x, y, θ, l, a, g, wr, wp, wy, hp, ht]).getD 2 0
        + (to_manip_format [x, y, θ, l, a, g, wr, wp, wy, hp, ht]).getD 3 0
        + (to_manip_format [x, y, θ, l, a, g, wr, wp, wy, hp, ht]).getD 4 0
        + (to_manip_format [x, y, θ, l, a, g, wr, wp, wy, hp, ht]).getD 5 0 = a
    ∧ ros_pose_to_pinocchio [x, y, θ, l, a, g, wr, wp, wy, hp, ht]
        = [x, l, a / 4, a / 4, a / 4, a / 4, wy, wp, wr]
    ∧ to_plan_format [s0, s1, s2, s3, s4, s5, s6, s7, s8, s9, s10]
        = [s0, s1, s2, s3, s4 + s5 + s6 + s7, 0, s10, s9, s8, 0, 0]
    ∧ from_manip_format [r0, r1, r2, r3, r4, r5, r6, r7, r8]
          [i0, i1, i2, i3, i4, i5, i6, i7, i8, i9, i10]
        = [r0, i1, i2, r1, r2 + r3 + r4 + r5, i5, r8, r7, r6, i9, i10] :=
  ⟨rfl, by show a / 4 + a / 4 + a / 4 + a / 4 = a; ring,
   rfl, by show a / 4 + a / 4 + a / 4 + a / 4 = a; ring,
   rfl, rfl, rfl⟩

/-- C2 (code-bug exhibit): the seed manip_ik passes to the oracle is the raw
planning-format q0, not its manipulation-mode conversion; the result of the
_to_manip_format call on line 396 is discarded.  An oracle that succeeds
exactly when it is seeded with the 9-element conversion of seed_example
reports failure under manip_ik, while an oracle that succeeds exactly when
seeded with the raw 11-element seed_example succeeds, and the merge over the
seed's untouched fields does happen on success.  The conversion differs from
the raw seed, so the claimed seed is provably not the one passed. -/
theorem manip_ik_seed_not_converted :
    manip_ik Unit
        (fun _ _ seed _ _ _ =>
          (if seed = some (to_manip_format seed_example) then some oracle_out_example
           else none,
           decide (seed = some (to_manip_format seed_example)), ()))
        ((0, 0, 0), (0, 0, 0, 1)) (some seed_example) true 1 false none
      = Except.ok (none, false, ())
    ∧ manip_ik Unit
        (fun _ _ seed _ _ _ =>
          (if seed = some seed_example then some oracle_out_example else none,
           decide (seed = some seed_example), ()))
        ((0, 0, 0), (0, 0, 0, 1)) (some seed_example) true 1 false none
      = Except.ok (some (from_manip_format oracle_out_example seed_example), true, ())
    ∧ to_manip_format seed_example ≠ seed_example := by
  refine ⟨rfl, rfl, by decide⟩

/-- C4: extend_arm_to returns a configuration whose arm equals the target,
whose base is displaced by exactly (da cos(theta + pi/2), da sin(theta +
pi/2)) for da the change in arm extension, with all other fields unchanged;
for an unchanged arm the configuration is returned unchanged, and for
heading 0 the base x coordinate is unchanged (displacement purely along y).
The function is pure, so the caller's input list is never mutated. -/
theorem extend_arm_to_spec (x y θ l a g wr wp wy hp ht A : ℝ) :
    extend_arm_to [x, y, θ, l, a, g, wr, wp, wy, hp, ht] A
      = [x + (A - a) * Real.cos (θ + Real.pi / 2),
         y + (A - a) * Real.sin (θ + Real.pi / 2), θ, l, A, g, wr, wp, wy, hp, ht]
    ∧ extend_arm_to [x, y, θ, l, a, g, wr, wp, wy, hp, ht] a
      = [x, y, θ, l, a, g, wr, wp, wy, hp, ht]
    ∧ (extend_arm_to [x, y, 0, l, a, g, wr, wp, wy, hp, ht] A).getD
        HelloStretchIdx.BASE_X 0 = x := by
  refine ⟨rfl, ?_, ?_⟩
  · show [x + (a - a) * Real.cos (θ + Real.pi / 2),
          y + (a - a) * Real.sin (θ + Real.pi / 2), θ, l, a, g, wr, wp, wy, hp, ht]
        = [x, y, θ, l, a, g, wr, wp, wy, hp, ht]
    simp
  · show x + (A - a) * Real.cos (0 + Real.pi / 2) = x
    simp [Real.cos_pi_div_two]

/-- C5: manip_ik_for_grasp_frame rejects a target with positive y with a
domain error carrying the robot name and the offending position; otherwise
it rejects a target with negative z the same way; and for a target with y
not positive and z not negative and a seed of valid length (manipulator or
full dof) it proceeds to invoke manip_ik on the normalized seed, raising no
error before the IK call. -/
theorem manip_ik_for_grasp_frame_preconditions (D : Type)
    (compute_ik : ℚ × ℚ × ℚ → ℚ × ℚ × ℚ × ℚ → Option (List ℚ) → Nat → Bool →
      Option String → Option (List ℚ) × Bool × D)
    (name : String) (px py pz : ℚ) (ee_rot : ℚ × ℚ × ℚ × ℚ) (q0 : List ℚ) :
    (py > 0 →
      manip_ik_for_grasp_frame D compute_ik name (px, py, pz) ee_rot (some q0)
        = Except.error (GraspError.domainErrorY name (px, py, pz)))
    ∧ (py ≤ 0 → pz < 0 →
      manip_ik_for_grasp_frame D compute_ik name (px, py, pz) ee_rot (some q0)
        = Except.error (GraspError.domainErrorZ name (px, py, pz)))
    ∧ (py ≤ 0 → 0 ≤ pz → q0.length = manip_dof ∨ q0.length = dof →
      manip_ik_for_grasp_frame D compute_ik name (px, py, pz) ee_rot (some q0)
        = grasp_invoke D compute_ik (px, py, pz) ee_rot
            (if q0.length = manip_dof then q0 else to_manip_format q0)) := by
  refine ⟨?_, ?_, ?_⟩
  · intro hy
    simp [manip_ik_for_grasp_frame, hy]
  · intro hy hz
    simp [manip_ik_for_grasp_frame, not_lt.mpr hy, hz]
  · intro hy hz hlen
    have h1 := not_lt.mpr hy
    have h2 := not_lt.mpr hz
    rcases hlen with h9 | h11
    · simp [manip_ik_for_grasp_frame, h1, h2, grasp_normalize_seed, h9]
    · have hne : q0.length ≠ manip_dof := by
        rw [h11]; decide
      simp [manip_ik_for_grasp_frame, h1, h2, grasp_normalize_seed, h11, hne,
        dof, manip_dof, default_manip_mode_controlled_joints]

/-- Witness for C5: the three branches at concrete inputs — a target with
positive y, a target with negative z, and a valid target with a 9-element
seed that reaches the manip_ik invocation. -/
theorem manip_ik_for_grasp_frame_preconditions_witness :
    manip_ik_for_grasp_frame Unit
        (fun _ _ _ _ _ _ => ((none : Option (List ℚ)), false, ()))
        "hello_robot_stretch" (0, 1, 0) (0, 0, 0, 1)
        (some [0, 0, 0, 0, 0, 0, 0, 0, 0])
      = Except.error (GraspError.domainErrorY "hello_robot_stretch" (0, 1, 0))
    ∧ manip_ik_for_grasp_frame Unit
        (fun _ _ _ _ _ _ => ((none : Option (List ℚ)), false, ()))
        "hello_robot_stretch" (0, -1, -1) (0, 0, 0, 1)
        (some [0, 0, 0, 0, 0, 0, 0, 0, 0])
      = Except.error (GraspError.domainErrorZ "hello_robot_stretch" (0, -1, -1))
    ∧ manip_ik_for_grasp_frame Unit
        (fun _ _ _ _ _ _ => ((none : Option (List ℚ)), false, ()))
        "hello_robot_stretch" (0, -1, 1) (0, 0, 0, 1)
        (some [0, 0, 0, 0, 0, 0, 0, 0, 0])
      = grasp_invoke Unit
          (fun _ _ _ _ _ _ => ((none : Option (List ℚ)), false, ()))
          (0, -1, 1) (0, 0, 0, 1) [0, 0, 0, 0, 0, 0, 0, 0, 0] := by
  refine ⟨(manip_ik_for_grasp_frame_preconditions Unit
      (fun _ _ _ _ _ _ => ((none : Option (List ℚ)), false, ()))
      "hello_robot_stretch" 0 1 0 (0, 0, 0, 1) [0, 0, 0, 0, 0, 0, 0, 0, 0]).1
      (by decide),
    (manip_ik_for_grasp_frame_preconditions Unit
      (fun _ _ _ _ _ _ => ((none : Option (List ℚ)), false, ()))
      "hello_robot_stretch" 0 (-1) (-1) (0, 0, 0, 1) [0, 0, 0, 0, 0, 0, 0, 0, 0]).2.1
      (by decide) (by decide),
    (manip_ik_for_grasp_frame_preconditions Unit
      (fun _ _ _ _ _ _ => ((none : Option (List ℚ)), false, ()))
      "hello_robot_stretch" 0 (-1) 1 (0, 0, 0, 1) [0, 0, 0, 0, 0, 0, 0, 0, 0]).2.2
      (by decide) (by decide) (Or.inl (by decide))⟩

/-- C6 (counterexample): when the oracle reports an absent joint vector
together with a true success flag, manip_ik passes the true flag through
unchanged, so it does not return success=false as the claim states for
every oracle-reported failure (failure there includes an absent vector). -/
theorem manip_ik_absent_vector_flag_counterexample :
    manip_ik Unit (fun _ _ _ _ _ _ => ((none : Option (List ℚ)), true, ()))
        ((0, 0, 0), (0, 0, 0, 1)) (some (List.replicate 11 0)) true 1 false none
      = Except.ok (none, true, ())
    ∧ (Except.ok ((none : Option (List ℚ)), true, ())
        : Except String (Option (List ℚ) × Bool × Unit))
      ≠ Except.ok (none, false, ()) := by
  exact ⟨rfl, by simp⟩

/-- C6 (amended): when the oracle reports success=false, ik returns the
absent sentinel none and manip_ik returns success=false with the oracle's
configuration unconverted (absent or unchanged); when the oracle returns an
absent joint vector, ik returns none and manip_ik returns an absent
configuration with the oracle's success flag passed through unchanged.  In
all these cases manip_ik returns normally (an ok value, never an error), so
no exception is raised by either operation. -/
theorem ik_manip_ik_failure_propagation (D : Type)
    (fik : List (List ℚ) → List ℚ → Option (List ℚ) × Bool × D)
    (fm : ℚ × ℚ × ℚ → ℚ × ℚ × ℚ × ℚ → Option (List ℚ) → Nat → Bool →
      Option String → Option (List ℚ) × Bool × D)
    (rotmat : List (List ℚ)) (pos : ℚ × ℚ × ℚ) (q0 : List ℚ)
    (pq : (ℚ × ℚ × ℚ) × (ℚ × ℚ × ℚ × ℚ)) (q0m : Option (List ℚ))
    (num_attempts : Nat) (verbose : Bool) (cef : Option String)
    (qv : Option (List ℚ)) (s : Bool) (d : D) :
    (fik (pose_matrix rotmat pos.1 pos.2.1 pos.2.2) (to_ik_format q0)
        = (qv, false, d) → ik D fik rotmat pos q0 = none)
    ∧ (fik (pose_matrix rotmat pos.1 pos.2.1 pos.2.2) (to_ik_format q0)
        = (none, s, d) → ik D fik rotmat pos q0 = none)
    ∧ (fm pq.1 pq.2 q0m num_attempts verbose cef = (qv, false, d) →
      manip_ik D fm pq q0m true num_attempts verbose cef
        = Except.ok (qv, false, d))
    ∧ (fm pq.1 pq.2 q0m num_attempts verbose cef = (none, s, d) →
      manip_ik D fm pq q0m true num_attempts verbose cef
        = Except.ok (none, s, d)) := by
  refine ⟨?_, ?_, ?_, ?_⟩
  · intro h
    cases qv with
    | none => simp only [ik]; rw [h]
    | some qvl => simp only [ik]; rw [h]
  · intro h
    simp only [ik]; rw [h]
  · intro h
    cases qv with
    | none => simp only [manip_ik]; rw [h]; simp
    | some qvl => simp only [manip_ik]; rw [h]; simp
  · intro h
    simp only [manip_ik]; rw [h]; simp

/-- Witness for C6 (amended): a concrete failing oracle makes ik return the
absent sentinel and makes manip_ik return success=false without an error. -/
theorem ik_manip_ik_failure_propagation_witness :
    ik Unit (fun _ _ => ((none : Option (List ℚ)), false, ())) [] (0, 0, 0)
        (List.replicate 11 0) = none
    ∧ manip_ik Unit (fun _ _ _ _ _ _ => ((none : Option (List ℚ)), false, ()))
        ((0, 0, 0), (0, 0, 0, 1)) none true 1 false none
      = Except.ok (none, false, ()) := by
  have H := ik_manip_ik_failure_propagation Unit
    (fun _ _ => ((none : Option (List ℚ)), false, ()))
    (fun _ _ _ _ _ _ => ((none : Option (List ℚ)), false, ()))
    [] (0, 0, 0) (List.replicate 11 0) ((0, 0, 0), (0, 0, 0, 1)) none
    1 false none none false ()
  exact ⟨H.1 rfl, H.2.2.1 rfl⟩

/-- C7 (counterexample): with a reference configuration supplied, the
sampled base x is placed on the radius-2 circle around the reference base
(here 100 + 2 = 102) and therefore does not lie within the joint-range
table entry for base x (here the interval from 0 to 1), refuting the claim
that every degree of freedom except heading stays within the table. -/
theorem sample_uniform_range_counterexample :
    ¬ ((range_example.getD HelloStretchIdx.BASE_X (0, 0)).1
        ≤ (sample_uniform range_example draws_example 0 0 (some q0_example)
            none 2).getD HelloStretchIdx.BASE_X 0
      ∧ (sample_uniform range_example draws_example 0 0 (some q0_example)
            none 2).getD HelloStretchIdx.BASE_X 0
        ≤ (range_example.getD HelloStretchIdx.BASE_X (0, 0)).2) := by
  intro h
  have h2 := h.2
  rw [show (sample_uniform range_example draws_example 0 0 (some q0_example)
        none 2).getD HelloStretchIdx.BASE_X 0
      = 100 + 2 * Real.cos (0 * 2 * Real.pi) from rfl,
    show (range_example.getD HelloStretchIdx.BASE_X (0, 0)).2 = (1 : ℝ) from rfl]
    at h2
  norm_num [Real.cos_zero] at h2

/-- The lift, arm, wrist and head slots of a sample_uniform result with a
reference configuration are the affine images of the corresponding draws
over the range table (no override touches indices 3, 4, 6, 7, 8, 9, 10). -/
theorem sample_uniform_mid_slots (range : List (ℝ × ℝ)) (draws : List ℝ)
    (theta_draw pos_draw radius : ℝ) (q0 : List ℝ) (i : Nat)
    (hi : i ∈ ([3, 4, 6, 7, 8, 9, 10] : List Nat)) :
    (sample_uniform range draws theta_draw pos_draw (some q0) none radius).getD i 0
      = draws.getD i 0 * ((range.getD i (0, 0)).2 - (range.getD i (0, 0)).1)
        + (range.getD i (0, 0)).1 := by
  fin_cases hi <;> rfl

/-- C7 (amended): with a reference configuration q0 supplied, sample_uniform
draws the heading uniformly over the interval from 0 to 2 pi, copies q0's
gripper value, and places the base on the circle of the given radius around
q0's base position (hence generally outside the joint-range table); every
degree of freedom that is not overridden (lift, arm, wrist roll/pitch/yaw,
head pan/tilt) lies within the joint-range table whenever its draw lies in
[0, 1) and the table entry is a nonempty interval.  The operation is total:
no error is raised. -/
theorem sample_uniform_spec (range : List (ℝ × ℝ)) (draws : List ℝ)
    (theta_draw pos_draw radius : ℝ) (q0 : List ℝ)
    (ht0 : 0 ≤ theta_draw) (ht1 : theta_draw < 1) :
    ((sample_uniform range draws theta_draw pos_draw (some q0) none
          radius).getD HelloStretchIdx.BASE_THETA 0
        = theta_draw * Real.pi * 2
      ∧ 0 ≤ (sample_uniform range draws theta_draw pos_draw (some q0) none
          radius).getD HelloStretchIdx.BASE_THETA 0
      ∧ (sample_uniform range draws theta_draw pos_draw (some q0) none
          radius).getD HelloStretchIdx.BASE_THETA 0 < 2 * Real.pi)
    ∧ (sample_uniform range draws theta_draw pos_draw (some q0) none
          radius).getD HelloStretchIdx.GRIPPER 0
        = q0.getD HelloStretchIdx.GRIPPER 0
    ∧ (sample_uniform range draws theta_draw pos_draw (some q0) none
          radius).getD HelloStretchIdx.BASE_X 0
        = q0.getD HelloStretchIdx.BASE_X 0
          + radius * Real.cos (pos_draw * 2 * Real.pi)
    ∧ (sample_uniform range draws theta_draw pos_draw (some q0) none
          radius).getD HelloStretchIdx.BASE_Y 0
        = q0.getD HelloStretchIdx.BASE_Y 0
          + radius * Real.sin (pos_draw * 2 * Real.pi)
    ∧ (∀ i, i ∈ ([3, 4, 6, 7, 8, 9, 10] : List Nat) →
        0 ≤ draws.getD i 0 → draws.getD i 0 < 1 →
        (range.getD i (0, 0)).1 ≤ (range.getD i (0, 0)).2 →
        (range.getD i (0, 0)).1
            ≤ (sample_uniform range draws theta_draw pos_draw (some q0) none
                radius).getD i 0
          ∧ (sample_uniform range draws theta_draw pos_draw (some q0) none
                radius).getD i 0 ≤ (range.getD i (0, 0)).2) := by
  have hπ := Real.pi_pos
  refine ⟨⟨rfl, ?_, ?_⟩, rfl, rfl, rfl, ?_⟩
  · show 0 ≤ theta_draw * Real.pi * 2
    nlinarith
  · show theta_draw * Real.pi * 2 < 2 * Real.pi
    nlinarith [mul_pos hπ (sub_pos.mpr ht1)]
  · intro i hi h0 h1 hr
    rw [sample_uniform_mid_slots range draws theta_draw pos_draw radius q0 i hi]
    constructor
    · nlinarith [mul_nonneg h0 (sub_nonneg.mpr hr)]
    · nlinarith [mul_le_of_le_one_left (sub_nonneg.mpr hr) h1.le,
        mul_nonneg h0 (sub_nonneg.mpr hr)]

/-- Witness for C7 (amended): at the concrete range table, draws and
reference configuration, the gripper is copied from the reference and the
lift slot respects its range entry. -/
theorem sample_uniform_spec_witness :
    (sample_uniform range_example draws_example 0 0 (some q0_example)
        none 2).getD HelloStretchIdx.GRIPPER 0
      = q0_example.getD HelloStretchIdx.GRIPPER 0
    ∧ (range_example.getD HelloStretchIdx.LIFT (0, 0)).1
        ≤ (sample_uniform range_example draws_example 0 0 (some q0_example)
            none 2).getD HelloStretchIdx.LIFT 0 := by
  have H := sample_uniform_spec range_example draws_example 0 0 2 q0_example
    (le_refl 0) zero_lt_one
  refine ⟨H.2.1, (H.2.2.2.2 3 (by decide) ?_ ?_ ?_).1⟩
  · show (0 : ℝ) ≤ 0
    exact le_refl 0
  · show (0 : ℝ) < 1
    exact zero_lt_one
  · show (0 : ℝ) ≤ 1
    exact zero_le_one

/-- C8: manip_fk fails with the shape-mismatch assertion for every
configuration whose length differs from the full dof count, and for every
well-shaped configuration it returns defensive copies of the oracle's
end-effector position and orientation at the pinocchio conversion of the
configuration. -/
theorem manip_fk_spec (compute_fk : List ℚ → Option String → List ℚ × List ℚ)
    (q : List ℚ) (node : Option String) :
    (q.length ≠ dof →
      manip_fk compute_fk q node = Except.error "assert q.shape == (self.dof,)")
    ∧ (q.length = dof →
      manip_fk compute_fk q node
        = Except.ok (np_copy (compute_fk (ros_pose_to_pinocchio q) node).1,
            np_copy (compute_fk (ros_pose_to_pinocchio q) node).2)) := by
  constructor
  · intro h
    simp [manip_fk, h]
  · intro h
    simp [manip_fk, h]

/-- Witness for C8: a 9-element configuration is rejected with the shape
error and a full 11-element configuration yields the oracle's outputs. -/
theorem manip_fk_spec_witness :
    manip_fk (fun _ _ => (([1, 2, 3] : List ℚ), ([0, 0, 0, 1] : List ℚ)))
        [0, 0, 0, 0, 0, 0, 0, 0, 0] none
      = Except.error "assert q.shape == (self.dof,)"
    ∧ manip_fk (fun _ _ => (([1, 2, 3] : List ℚ), ([0, 0, 0, 1] : List ℚ)))
        [0, 0, 0, 0, 0, 0, 0, 0, 0, 0, 0] none
      = Except.ok ([1, 2, 3], [0, 0, 0, 1]) := by
  exact ⟨(manip_fk_spec (fun _ _ => ([1, 2, 3], [0, 0, 0, 1]))
      [0, 0, 0, 0, 0, 0, 0, 0, 0] none).1 (by decide),
    (manip_fk_spec (fun _ _ => ([1, 2, 3], [0, 0, 0, 1]))
      [0, 0, 0, 0, 0, 0, 0, 0, 0, 0, 0] none).2 (by decide)⟩

/-- C9: the unsupported capabilities fail loudly for every input: manip_ik
with relative=false errors before any oracle call (the oracle is never
consulted, for any oracle), get_ee_pose errors for every argument, and the
reverse pinocchio-to-native conversion errors for every argument; none of
them returns a default or zero result. -/
theorem unimplemented_capabilities_fail (D : Type)
    (compute_ik : ℚ × ℚ × ℚ → ℚ × ℚ × ℚ × ℚ → Option (List ℚ) → Nat → Bool →
      Option String → Option (List ℚ) × Bool × D)
    (pose_query : (ℚ × ℚ × ℚ) × (ℚ × ℚ × ℚ × ℚ)) (q0 : Option (List ℚ))
    (num_attempts : Nat) (verbose : Bool) (cef : Option String)
    (q : Option (List ℚ)) (ja : List ℚ) :
    manip_ik D compute_ik pose_query q0 false num_attempts verbose cef
      = Except.error "NotImplementedError"
    ∧ get_ee_pose q = Except.error "NotImplementedError"
    ∧ pinocchio_pose_to_ros ja = Except.error "NotImplementedError" := by
  refine ⟨?_, rfl, rfl⟩
  cases q0 <;> rfl

/-- C10: although manip_ik_for_grasp_frame declares its seed optional with
default None, for every valid target (y not positive, z not negative) a
call that omits the seed fails at the len(q0) seed-length check with a
TypeError instead of falling back to manip_ik's built-in home default; the
default-seed path of manip_ik is unreachable through this wrapper. -/
theorem grasp_frame_none_seed_type_error (D : Type)
    (compute_ik : ℚ × ℚ × ℚ → ℚ × ℚ × ℚ × ℚ → Option (List ℚ) → Nat → Bool →
      Option String → Option (List ℚ) × Bool × D)
    (name : String) (px py pz : ℚ) (ee_rot : ℚ × ℚ × ℚ × ℚ)
    (hy : py ≤ 0) (hz : 0 ≤ pz) :
    manip_ik_for_grasp_frame D compute_ik name (px, py, pz) ee_rot none
      = Except.error GraspError.typeErrorNoneSeed := by
  simp [manip_ik_for_grasp_frame, not_lt.mpr hy, not_lt.mpr hz]

/-- Witness for C10: a valid concrete target with the seed omitted fails
with the TypeError sentinel. -/
theorem grasp_frame_none_seed_type_error_witness :
    manip_ik_for_grasp_frame Unit
        (fun _ _ _ _ _ _ => ((none : Option (List ℚ)), false, ()))
        "hello_robot_stretch" (0, -1, 1) (0, 0, 0, 1) none
      = Except.error GraspError.typeErrorNoneSeed :=
  grasp_frame_none_seed_type_error Unit
    (fun _ _ _ _ _ _ => ((none : Option (List ℚ)), false, ()))
    "hello_robot_stretch" 0 (-1) 1 (0, 0, 0, 1) (by decide) (by decide)

end HelloStretchKinematics
